import Mathlib

/-!
Verification of the tweet-detail page and the tweet-creation API route of
the hw3 social-feed application.

Shallow embedding:
* `src/hw3/src/app/tweet/[tweet_id]/page.tsx` — the `TweetPage` server
  component: parse the path segment with JS `parseInt`, fetch the root
  tweet, its likes, the viewer's like row, the author, and the replies
  (with grouped like counts and a viewer-liked flag left-joined on).
* `src/hw3/src/app/api/tweets/route.ts` — the `POST` handler: zod
  validation of the payload, then a single insert.

Database tables are modelled as lists of rows; SQL SELECT / WHERE /
GROUP BY / INNER JOIN / LEFT JOIN / ORDER BY become list operations.
JSON numbers are modelled as exact rationals (`Rat`); JS floating-point
precision is abstracted away (all inputs of interest are small).
String length is modelled as `String.length` (code points); the claims
only involve ASCII content, where this agrees with JS `.length`.
-/

namespace HW3

/-! ## Data model (db/schema): users, tweets, likes -/

structure UserRow where
  id : Int
  displayName : String
deriving DecidableEq, Repr

structure TweetRow where
  id : Int
  userId : Int
  content : String
  timestart : Option Int
  timeend : Option Int
  replyToTweetId : Option Int
  createdAt : Int
deriving DecidableEq, Repr

structure LikeRow where
  id : Int
  tweetId : Int
  userId : Int
deriving DecidableEq, Repr

structure Db where
  users : List UserRow
  tweets : List TweetRow
  likes : List LikeRow
deriving DecidableEq, Repr

/-! ## JS `parseInt` (ECMA-262, radix argument omitted)

`parseInt(s)`: skip leading whitespace, read an optional sign, then
auto-detect a `0x`/`0X` prefix (hexadecimal) or fall back to decimal,
and consume the longest prefix of digits valid in that base; if that
prefix is empty the result is NaN (modelled as `none`). -/

/-- Value of a character as a hexadecimal digit, if it is one. -/
def hexVal (c : Char) : Option Nat :=
  if '0' ≤ c ∧ c ≤ '9' then some (c.toNat - 48)
  else if 'a' ≤ c ∧ c ≤ 'f' then some (c.toNat - 87)
  else if 'A' ≤ c ∧ c ≤ 'F' then some (c.toNat - 55)
  else none

/-- Value of a character as a digit in the given base (base 10 or 16 here). -/
def digitValue (base : Nat) (c : Char) : Option Nat :=
  match hexVal c with
  | some v => if v < base then some v else none
  | none => none

/-- Horner evaluation of a digit list, most significant first. -/
def digitsToNat (base : Nat) (ds : List Nat) : Nat :=
  ds.foldl (fun a d => a * base + d) 0

/-- Consume the longest prefix of digits valid in `base`; empty ⇒ NaN. -/
def parseRadix (base : Nat) (cs : List Char) : Option Nat :=
  let ds := cs.takeWhile (fun c => (digitValue base c).isSome)
  if ds = [] then none
  else some (digitsToNat base (ds.map (fun c => (digitValue base c).getD 0)))

/-- After the optional sign: `0x`/`0X` selects base 16, else base 10. -/
def parseDigitsPart (cs : List Char) : Option Nat :=
  match cs with
  | c0 :: c1 :: rest =>
    if c0 = '0' ∧ (c1 = 'x' ∨ c1 = 'X') then parseRadix 16 rest
    else parseRadix 10 (c0 :: c1 :: rest)
  | _ => parseRadix 10 cs

/-- The optional sign in front of the digit part. -/
def parseSigned (cs : List Char) : Option Int :=
  match cs with
  | [] => none
  | c :: rest =>
    if c = '-' then (parseDigitsPart rest).map (fun n => -(n : Int))
    else if c = '+' then (parseDigitsPart rest).map (fun n => (n : Int))
    else (parseDigitsPart (c :: rest)).map (fun n => (n : Int))

/-- JS `parseInt` on a character list: whitespace, sign, digit part. -/
def parseIntChars (cs : List Char) : Option Int :=
  parseSigned (cs.dropWhile Char.isWhitespace)

/-- JS `parseInt(tweet_id)` as used at page.tsx:43; `none` models NaN. -/
def parseIntJS (s : String) : Option Int :=
  parseIntChars s.toList

/-! ## The tweet-detail page (page.tsx `TweetPage`) -/

/-- The view model built for the root tweet (page.tsx:126-136). -/
structure TweetView where
  id : Int
  content : String
  timestart : Option Int
  timeend : Option Int
  username : String
  userid : Int
  likes : Nat
  createdAt : Int
  liked : Bool
deriving DecidableEq, Repr

/-- One row of the `replies` query output (page.tsx:160-178).
`likes` and `liked` are `Option` because both come through LEFT JOINs:
a reply with no matching subquery row gets SQL NULL there. -/
structure ReplyRow where
  id : Int
  content : String
  replyToTweetId : Option Int
  username : String
  userid : Int
  likes : Option Nat
  createdAt : Int
  liked : Option Bool
deriving DecidableEq, Repr

/-- Outcome of rendering the page: a redirect (Next.js `redirect` throws,
so nothing after it runs), a rendered view, or an unhandled runtime
error (a thrown exception that is not caught anywhere in the page). -/
inductive PageResult where
  | redirect (username : Option String)
  | render (tweet : TweetView) (replies : List ReplyRow)
  | crash
deriving DecidableEq, Repr

/-- page.tsx:36-40: redirect home; the `username` query parameter is set
only when `username` is truthy (the empty string is falsy in JS). -/
def errorRedirect (username : String) : PageResult :=
  .redirect (if username = "" then none else some username)

/-- The `likes_count` CTE (page.tsx:140-148): `SELECT tweet_id, count(*)
FROM likes GROUP BY tweet_id` — one row per distinct tweetId value. -/
def likesSubquery (likes : List LikeRow) : List (Int × Nat) :=
  ((likes.map (fun l => l.tweetId)).dedup).map
    (fun t => (t, (likes.filter (fun l => l.tweetId == t)).length))

/-- The `liked` CTE (page.tsx:150-158): likes filtered to the viewer,
each row projecting the constant marker `1` (mapped to `true`). -/
def likedSubquery (likes : List LikeRow) (userid : Int) : List LikeRow :=
  likes.filter (fun l => l.userId == userid)

/-- LEFT JOIN semantics for a single left row: the matching right rows,
or a single NULL row when there is no match. -/
def leftJoinMatches {β : Type} (ms : List β) : List (Option β) :=
  match ms with
  | [] => [none]
  | ms => ms.map some

/-- Assemble one output row of the replies query from the joined parts. -/
def mkReplyRow (t : TweetRow) (u : UserRow) (lc : Option (Int × Nat))
    (ld : Option LikeRow) : ReplyRow :=
  { id := t.id, content := t.content, replyToTweetId := t.replyToTweetId,
    username := u.displayName, userid := u.id,
    likes := lc.map (fun p => p.2), createdAt := t.createdAt,
    liked := ld.map (fun _ => true) }

/-- The joined rows one reply tweet `t` contributes: INNER JOIN users on
the author id, LEFT JOIN the `likes_count` CTE on tweet id, LEFT JOIN
the `liked` CTE on tweet id. -/
def replyRowsFor (db : Db) (userid : Int) (t : TweetRow) : List ReplyRow :=
  (db.users.filter (fun u => u.id == t.userId)).flatMap (fun u =>
    (leftJoinMatches ((likesSubquery db.likes).filter
        (fun p => p.1 == t.id))).flatMap (fun lc =>
      (leftJoinMatches ((likedSubquery db.likes userid).filter
          (fun l => l.tweetId == t.id))).map (fun ld =>
        mkReplyRow t u lc ld)))

/-- The replies query before ORDER BY: tweets WHERE reply_to_tweet_id =
`n`, with the three joins applied to each. -/
def repliesRaw (db : Db) (n : Int) (userid : Int) : List ReplyRow :=
  (db.tweets.filter (fun t => t.replyToTweetId == some n)).flatMap
    (replyRowsFor db userid)

/-- The ordering used by ORDER BY created_at ASC. -/
def byCreatedAt (a b : ReplyRow) : Prop :=
  a.createdAt ≤ b.createdAt

instance : DecidableRel byCreatedAt :=
  fun a b => inferInstanceAs (Decidable (a.createdAt ≤ b.createdAt))

instance : IsTotal ReplyRow byCreatedAt :=
  ⟨fun a b => Int.le_total a.createdAt b.createdAt⟩

instance : IsTrans ReplyRow byCreatedAt :=
  ⟨fun _ _ _ hab hbc => le_trans hab hbc⟩

/-- The full replies query (page.tsx:160-178): ORDER BY created_at ASC,
modelled as a stable sort of the joined rows. -/
def replies (db : Db) (n : Int) (userid : Int) : List ReplyRow :=
  (repliesRaw db n userid).insertionSort byCreatedAt

/-- The page body after the tweet id has parsed to `n` (page.tsx:64-233):
fetch the root tweet (redirect when absent), count its likes by
materialising the like rows, fetch the viewer's like row, fetch the
author — the code never checks the author row, so a missing author makes
`user.displayName` throw (modelled as `crash`) — then run the replies
query and render. -/
def pageForId (db : Db) (n : Int) (username : String) (userid : Int) :
    PageResult :=
  match db.tweets.find? (fun t => t.id == n) with
  | none => errorRedirect username
  | some tweetData =>
    let numLikes := (db.likes.filter (fun l => l.tweetId == n)).length
    let liked :=
      ((db.likes.filter (fun l => l.tweetId == n && l.userId == userid)).head?).isSome
    match db.users.find? (fun u => u.id == tweetData.userId) with
    | none => .crash
    | some user =>
      .render
        { id := tweetData.id, content := tweetData.content,
          timestart := tweetData.timestart, timeend := tweetData.timeend,
          username := user.displayName, userid := user.id,
          likes := numLikes, createdAt := tweetData.createdAt,
          liked := liked }
        (replies db n userid)

/-- The whole page component `TweetPage` (page.tsx:30-234). -/
def TweetPage (db : Db) (tweet_id : String) (username : String)
    (userid : Int) : PageResult :=
  match parseIntJS tweet_id with
  | none => errorRedirect username
  | some n => pageForId db n username userid

/-! ## The write endpoint (route.ts `POST`) -/

/-- A JSON value as far as the zod checks can distinguish one: a number
(exact rational), a string, or anything else (null, boolean, array,
object — all rejected by `z.number()` / `z.string()` alike). -/
inductive JsonVal where
  | num (q : Rat)
  | str (s : String)
  | other
deriving DecidableEq, Repr

/-- The request body, field by field; `none` means the key is absent. -/
structure RawPayload where
  userId : Option JsonVal
  content : Option JsonVal
  timestart : Option JsonVal
  timeend : Option JsonVal
  replyToTweetId : Option JsonVal
deriving DecidableEq, Repr

/-- `z.number()`: any JSON number (no integrality check). -/
def isNumber : JsonVal → Bool
  | .num _ => true
  | _ => false

/-- `z.string().min(1).max(280)`. -/
def isStr1to280 : JsonVal → Bool
  | .str s => decide (1 ≤ s.length) && decide (s.length ≤ 280)
  | _ => false

/-- `z.number().positive()`: any JSON number strictly greater than 0. -/
def isPositiveNumber : JsonVal → Bool
  | .num q => decide (0 < q)
  | _ => false

/-- A required zod field: the key must be present and match. -/
def requiredField (f : JsonVal → Bool) : Option JsonVal → Bool
  | none => false
  | some j => f j

/-- A `.optional()` zod field: an absent key passes. -/
def optionalField (f : JsonVal → Bool) : Option JsonVal → Bool
  | none => true
  | some j => f j

/-- `postTweetRequestSchema` (route.ts:13-19). -/
def postTweetRequestSchema (p : RawPayload) : Bool :=
  requiredField isNumber p.userId &&
  requiredField isStr1to280 p.content &&
  optionalField isNumber p.timestart &&
  optionalField isNumber p.timeend &&
  optionalField isPositiveNumber p.replyToTweetId

/-- Modelled from the spec: the input schema as §4.3 declares it —
`userId: integer`, `content: string length 1..280`, `timestart`/
`timeend: integer, optional`, `replyToTweetId: positive integer,
optional`. Used only to compare against `postTweetRequestSchema`. -/
def specDeclaredShape (p : RawPayload) : Bool :=
  requiredField (fun j => match j with
    | .num q => q.den == 1
    | _ => false) p.userId &&
  requiredField isStr1to280 p.content &&
  optionalField (fun j => match j with
    | .num q => q.den == 1
    | _ => false) p.timestart &&
  optionalField (fun j => match j with
    | .num q => q.den == 1
    | _ => false) p.timeend &&
  optionalField (fun j => match j with
    | .num q => q.den == 1 && decide (0 < q)
    | _ => false) p.replyToTweetId

/-- The row the handler inserts (route.ts:59-69): the validated payload
fields; `created_at` etc. are defaulted by the store and not modelled. -/
structure InsertedTweet where
  userId : Rat
  content : String
  timestart : Option Rat
  timeend : Option Rat
  replyToTweetId : Option Rat
deriving DecidableEq, Repr

/-- The store as the endpoint sees it: persisted rows plus the next
auto-generated identifier. -/
structure ApiState where
  rows : List InsertedTweet
  nextId : Int
deriving DecidableEq, Repr

/-- Whether the insert call itself succeeds or throws (store
unavailable, constraint violation, ...); the cause travels with the
failure so we can show the response never depends on it. -/
inductive InsertOutcome where
  | ok
  | fail (cause : String)
deriving DecidableEq, Repr

/-- The HTTP response body: `{data: [{id}]}` or `{error: msg}`. -/
inductive ResponseBody where
  | data (ids : List Int)
  | error (msg : String)
deriving DecidableEq, Repr

structure PostResponse where
  status : Nat
  body : ResponseBody
deriving DecidableEq, Repr

/-- Projections of the already-validated payload to the typed fields
the handler destructures (route.ts:58). Safe after validation. -/
def getNum : Option JsonVal → Rat
  | some (.num q) => q
  | _ => 0

def getNumOpt : Option JsonVal → Option Rat
  | some (.num q) => some q
  | _ => none

def getStr : Option JsonVal → String
  | some (.str s) => s
  | _ => ""

/-- The `POST` handler (route.ts:30-79): validate (400 on failure, no
insert), then insert one row (500 on a thrown store error, 200 with the
fresh id otherwise). -/
def POST (outcome : InsertOutcome) (p : RawPayload) (st : ApiState) :
    PostResponse × ApiState :=
  if postTweetRequestSchema p then
    match outcome with
    | .fail _ => ({ status := 500, body := .error "Something went wrong" }, st)
    | .ok =>
      let row : InsertedTweet :=
        { userId := getNum p.userId, content := getStr p.content,
          timestart := getNumOpt p.timestart, timeend := getNumOpt p.timeend,
          replyToTweetId := getNumOpt p.replyToTweetId }
      ({ status := 200, body := .data [st.nextId] },
       { rows := st.rows ++ [row], nextId := st.nextId + 1 })
  else
    ({ status := 400, body := .error "Invalid request" }, st)

/-- The grouped like count a tweet gets from the `likes_count` CTE after
the left join: the count in its group row, or 0 when absent. -/
def groupedLikeCount (likes : List LikeRow) (t : Int) : Nat :=
  match (likesSubquery likes).find? (fun p => p.1 == t) with
  | some p => p.2
  | none => 0

/-! ## Concrete fixtures used by witnesses and counterexamples -/

/-- A populated store: a root tweet (id 1), two replies (ids 2, 3) with
existing authors, and three likes, no two on the same (user, tweet). -/
def sampleDb : Db :=
  { users := [⟨5, "alice"⟩, ⟨6, "bob"⟩],
    tweets := [⟨1, 5, "root", none, none, none, 10⟩,
               ⟨2, 6, "r1", none, none, some 1, 30⟩,
               ⟨3, 5, "r2", none, none, some 1, 20⟩],
    likes := [⟨100, 1, 6⟩, ⟨101, 2, 5⟩, ⟨102, 2, 6⟩] }

/-- A store whose only tweet (id 1) references author id 5, but the
users table is empty. -/
def dbNoAuthor : Db :=
  { users := [],
    tweets := [⟨1, 5, "orphan", none, none, none, 0⟩],
    likes := [] }

/-- A store holding both tweet id 0 and tweet id 10, authored by an
existing user, no likes. -/
def dbHex : Db :=
  { users := [⟨5, "alice"⟩],
    tweets := [⟨0, 5, "zero", none, none, none, 40⟩,
               ⟨10, 5, "ten", none, none, none, 50⟩],
    likes := [] }

/-- A store holding exactly tweet id 12 with an existing author. -/
def db12 : Db :=
  { users := [⟨5, "alice"⟩],
    tweets := [⟨12, 5, "twelve", none, none, none, 60⟩],
    likes := [] }

/-- A store with a root tweet (id 1), one reply (id 2), and no likes. -/
def dbZeroLikes : Db :=
  { users := [⟨5, "alice"⟩, ⟨6, "bob"⟩],
    tweets := [⟨1, 5, "root", none, none, none, 10⟩,
               ⟨2, 6, "rep", none, none, some 1, 20⟩],
    likes := [] }

/-- A schema-valid creation payload. -/
def goodPayload : RawPayload :=
  ⟨some (.num 3), some (.str "hi"), none, none, none⟩

/-- A payload whose content has length 0. -/
def emptyContentPayload : RawPayload :=
  ⟨some (.num 3), some (.str ""), none, none, none⟩

/-- A payload whose content has length 281. -/
def longContentPayload : RawPayload :=
  ⟨some (.num 3), some (.str (String.mk (List.replicate 281 'a'))), none, none, none⟩

/-- The rational 1/2, given in normal form so that the kernel can
evaluate its numerator and denominator directly. -/
def halfRat : Rat := ⟨1, 2, by omega, Nat.coprime_one_left 2⟩

/-- A payload whose `userId` is the non-integer number 1/2. -/
def halfPayload : RawPayload :=
  ⟨some (.num halfRat), some (.str "hi"), none, none, none⟩

/-! ## Helper lemmas -/

lemma find?_key_map (ks : List Int) (g : Int → Nat) (t : Int) :
    (ks.map (fun k => (k, g k))).find? (fun p => p.1 == t) =
    if t ∈ ks then some (t, g t) else none := by
  induction ks with
  | nil => simp
  | cons k ks ih =>
    by_cases h : k = t
    · subst h
      rw [List.map_cons, List.find?_cons_of_pos _ (by simp)]
      simp
    · rw [List.map_cons, List.find?_cons_of_neg _ (by simp [h]), ih]
      simp [List.mem_cons, Ne.symm h]

lemma requiredNumber_iff (o : Option JsonVal) :
    requiredField isNumber o = true ↔ ∃ q, o = some (.num q) := by
  cases o with
  | none => simp [requiredField]
  | some j => cases j <;> simp [requiredField, isNumber]

lemma requiredStr_iff (o : Option JsonVal) :
    requiredField isStr1to280 o = true ↔
      ∃ s, o = some (.str s) ∧ 1 ≤ s.length ∧ s.length ≤ 280 := by
  cases o with
  | none => simp [requiredField]
  | some j => cases j <;> simp [requiredField, isStr1to280]

lemma optionalNumber_iff (o : Option JsonVal) :
    optionalField isNumber o = true ↔ (o = none ∨ ∃ q, o = some (.num q)) := by
  cases o with
  | none => simp [optionalField]
  | some j => cases j <;> simp [optionalField, isNumber]

lemma optionalPos_iff (o : Option JsonVal) :
    optionalField isPositiveNumber o = true ↔
      (o = none ∨ ∃ q, o = some (.num q) ∧ 0 < q) := by
  cases o with
  | none => simp [optionalField]
  | some j => cases j <;> simp [optionalField, isPositiveNumber]

lemma digit_isWhitespace_false {c : Char} (h1 : '0' ≤ c) (h2 : c ≤ '9') :
    c.isWhitespace = false := by
  have hlo : 48 ≤ c.toNat := by exact_mod_cast h1
  rcases hws : c.isWhitespace with _ | _
  · rfl
  · exfalso
    simp only [Char.isWhitespace, Bool.or_eq_true, decide_eq_true_eq] at hws
    rcases hws with ((rfl | rfl) | rfl) | rfl <;> exact absurd hlo (by decide)

lemma digitValue10_of_digit {c : Char} (h1 : '0' ≤ c) (h2 : c ≤ '9') :
    digitValue 10 c = some (c.toNat - 48) := by
  have hlo : 48 ≤ c.toNat := by exact_mod_cast h1
  have hhi : c.toNat ≤ 57 := by exact_mod_cast h2
  have hh : hexVal c = some (c.toNat - 48) := by
    unfold hexVal
    rw [if_pos ⟨h1, h2⟩]
  simp only [digitValue, hh]
  rw [if_pos (by omega)]

lemma digitValue10_of_nondigit {c : Char} (h : ¬('0' ≤ c ∧ c ≤ '9')) :
    digitValue 10 c = none := by
  by_cases ha : 'a' ≤ c ∧ c ≤ 'f'
  · have hh : hexVal c = some (c.toNat - 87) := by
      unfold hexVal
      rw [if_neg h, if_pos ha]
    have h97 : 97 ≤ c.toNat := by exact_mod_cast ha.1
    simp only [digitValue, hh]
    rw [if_neg (by omega)]
  · by_cases hA : 'A' ≤ c ∧ c ≤ 'F'
    · have hh : hexVal c = some (c.toNat - 55) := by
        unfold hexVal
        rw [if_neg h, if_neg ha, if_pos hA]
      have h65 : 65 ≤ c.toNat := by exact_mod_cast hA.1
      simp only [digitValue, hh]
      rw [if_neg (by omega)]
    · have hh : hexVal c = none := by
        unfold hexVal
        rw [if_neg h, if_neg ha, if_neg hA]
      simp only [digitValue, hh]

lemma takeWhile_append_all {α : Type} (p : α → Bool) (l1 l2 : List α)
    (h : ∀ a ∈ l1, p a = true) :
    (l1 ++ l2).takeWhile p = l1 ++ l2.takeWhile p := by
  induction l1 with
  | nil => simp
  | cons a l ih =>
    rw [List.cons_append, List.takeWhile_cons, if_pos (h a (by simp)),
      ih (fun x hx => h x (by simp [hx])), List.cons_append]

/-- Digits followed by a non-digit tail: base-10 `parseRadix` consumes
exactly the digits. -/
lemma parseRadix10_digits (ds ts : List Char) (hne : ds ≠ [])
    (hdig : ∀ c ∈ ds, '0' ≤ c ∧ c ≤ '9')
    (hts : ts = [] ∨ ∃ c ts2, ts = c :: ts2 ∧ ¬('0' ≤ c ∧ c ≤ '9')) :
    parseRadix 10 (ds ++ ts) =
      some (digitsToNat 10 (ds.map (fun c => c.toNat - 48))) := by
  have h1 : (ds ++ ts).takeWhile (fun c => (digitValue 10 c).isSome) = ds := by
    rw [takeWhile_append_all _ _ _ (fun a ha => by
      rw [digitValue10_of_digit (hdig a ha).1 (hdig a ha).2]
      rfl)]
    have h2 : ts.takeWhile (fun c => (digitValue 10 c).isSome) = [] := by
      rcases hts with rfl | ⟨c, ts2, rfl, hc⟩
      · rfl
      · rw [List.takeWhile_cons, digitValue10_of_nondigit hc]
        simp
    rw [h2, List.append_nil]
  have hmap : ds.map (fun c => (digitValue 10 c).getD 0)
      = ds.map (fun c => c.toNat - 48) :=
    List.map_congr_left (fun a ha => by
      rw [digitValue10_of_digit (hdig a ha).1 (hdig a ha).2]
      rfl)
  simp only [parseRadix]
  rw [h1, if_neg hne, hmap]

/-- JS `parseInt` on a digit prefix with non-numeric garbage behind it
(and no `0x` hex prefix): the digits alone are parsed, base 10. -/
lemma parseIntChars_digits_prefix (ds ts : List Char) (hne : ds ≠ [])
    (hdig : ∀ c ∈ ds, '0' ≤ c ∧ c ≤ '9')
    (hts : ts = [] ∨ ∃ c ts2, ts = c :: ts2 ∧ ¬('0' ≤ c ∧ c ≤ '9'))
    (hnx : ds = ['0'] → ∀ c ts2, ts = c :: ts2 → ¬(c = 'x' ∨ c = 'X')) :
    parseIntChars (ds ++ ts) =
      some ((digitsToNat 10 (ds.map (fun c => c.toNat - 48)) : Nat) : Int) := by
  obtain ⟨d0, ds1, rfl⟩ : ∃ d0 ds1, ds = d0 :: ds1 := by
    cases ds with
    | nil => exact absurd rfl hne
    | cons a l => exact ⟨a, l, rfl⟩
  have hd0 := hdig d0 (by simp)
  have hdw : ((d0 :: ds1) ++ ts).dropWhile Char.isWhitespace
      = d0 :: (ds1 ++ ts) := by
    rw [List.cons_append, List.dropWhile_cons,
      digit_isWhitespace_false hd0.1 hd0.2]
    simp
  have hd0m : d0 ≠ '-' := fun he => absurd (he ▸ hd0.1) (by decide)
  have hd0p : d0 ≠ '+' := fun he => absurd (he ▸ hd0.1) (by decide)
  rw [parseIntChars, hdw, parseSigned, if_neg hd0m, if_neg hd0p]
  have hpd : parseDigitsPart (d0 :: (ds1 ++ ts))
      = parseRadix 10 ((d0 :: ds1) ++ ts) := by
    cases ds1 with
    | nil =>
      rcases hts with rfl | ⟨c, ts2, rfl, hc⟩
      · rfl
      · rw [show d0 :: ([] ++ (c :: ts2)) = d0 :: c :: ts2 from rfl, parseDigitsPart]
        rw [if_neg ?_]
        · rfl
        · rintro ⟨rfl, hx⟩
          exact hnx rfl c ts2 rfl hx
    | cons d1 ds2 =>
      have hd1 := hdig d1 (by simp)
      rw [show d0 :: ((d1 :: ds2) ++ ts) = d0 :: d1 :: (ds2 ++ ts) from rfl,
        parseDigitsPart]
      rw [if_neg ?_]
      · rfl
      · rintro ⟨-, rfl | rfl⟩ <;> exact absurd hd1.2 (by decide)
  rw [hpd, parseRadix10_digits ((d0 :: ds1)) ts hne hdig hts]
  rfl

lemma exists_mem_leftJoinMatches {β : Type} (ms : List β) :
    ∃ o, o ∈ leftJoinMatches ms := by
  cases ms with
  | nil => exact ⟨none, by simp [leftJoinMatches]⟩
  | cons m ms => exact ⟨some m, by simp [leftJoinMatches]⟩

/-- A reply row of the batch query decomposes into its joined parts. -/
lemma mem_replies_iff (db : Db) (n v : Int) (r : ReplyRow) :
    r ∈ replies db n v ↔
      ∃ t ∈ db.tweets.filter (fun t => t.replyToTweetId == some n),
      ∃ u ∈ db.users.filter (fun u => u.id == t.userId),
      ∃ lc ∈ leftJoinMatches
          ((likesSubquery db.likes).filter (fun p => p.1 == t.id)),
      ∃ ld ∈ leftJoinMatches
          ((likedSubquery db.likes v).filter (fun l => l.tweetId == t.id)),
      r = mkReplyRow t u lc ld := by
  rw [replies, (List.perm_insertionSort byCreatedAt _).mem_iff, repliesRaw]
  simp only [List.mem_flatMap, replyRowsFor, List.mem_map]
  constructor
  · rintro ⟨t, ht, u, hu, lc, hlc, ld, hld, rfl⟩
    exact ⟨t, ht, u, hu, lc, hlc, ld, hld, rfl⟩
  · rintro ⟨t, ht, u, hu, lc, hlc, ld, hld, rfl⟩
    exact ⟨t, ht, u, hu, lc, hlc, ld, hld, rfl⟩

/-- A reply tweet with no like rows at all meets neither CTE: both left
joins miss and produce NULL. -/
lemma mem_replies_zero_likes (db : Db) (n v : Int) (r : ReplyRow)
    (hr : r ∈ replies db n v)
    (h0 : db.likes.filter (fun l => l.tweetId == r.id) = []) :
    r.likes = none ∧ r.liked = none := by
  rw [mem_replies_iff] at hr
  obtain ⟨t, ht, u, hu, lc, hlc, ld, hld, rfl⟩ := hr
  have hid : (mkReplyRow t u lc ld).id = t.id := rfl
  rw [hid] at h0
  rw [List.filter_eq_nil_iff] at h0
  have hsub : (likesSubquery db.likes).filter (fun p => p.1 == t.id) = [] := by
    rw [List.filter_eq_nil_iff]
    intro p hp hpt
    obtain ⟨k, hk, rfl⟩ := List.mem_map.mp hp
    obtain ⟨a, ha, hak⟩ := List.mem_map.mp (List.mem_dedup.mp hk)
    refine h0 a ha ?_
    have : k = t.id := by simpa using hpt
    simp [hak, this]
  have hldq : (likedSubquery db.likes v).filter (fun l => l.tweetId == t.id) = [] := by
    rw [List.filter_eq_nil_iff]
    intro a ha hat
    exact h0 a (List.mem_filter.mp ha).1 hat
  rw [hsub] at hlc
  rw [hldq] at hld
  simp only [leftJoinMatches, List.mem_singleton] at hlc hld
  subst hlc
  subst hld
  exact ⟨rfl, rfl⟩

/-- Any direct reply whose author row exists yields at least one row of
the batch output (the left joins never drop a row). -/
lemma reply_appears (db : Db) (n v : Int) (t : TweetRow) (u : UserRow)
    (ht : t ∈ db.tweets) (hrt : t.replyToTweetId = some n)
    (hu : u ∈ db.users) (huid : u.id = t.userId) :
    ∃ r ∈ replies db n v, r.id = t.id := by
  obtain ⟨lc, hlc⟩ := exists_mem_leftJoinMatches
    ((likesSubquery db.likes).filter (fun p => p.1 == t.id))
  obtain ⟨ld, hld⟩ := exists_mem_leftJoinMatches
    ((likedSubquery db.likes v).filter (fun l => l.tweetId == t.id))
  refine ⟨mkReplyRow t u lc ld, ?_, rfl⟩
  rw [mem_replies_iff]
  exact ⟨t, List.mem_filter.mpr ⟨ht, by simp [hrt]⟩,
    u, List.mem_filter.mpr ⟨hu, by simp [huid]⟩, lc, hlc, ld, hld, rfl⟩

/-- The grouped subquery has at most one row per tweet id: its keys are
the deduped tweet ids of the like rows. -/
lemma likesSubquery_filter_len (likes : List LikeRow) (t : Int) :
    ((likesSubquery likes).filter (fun p => p.1 == t)).length ≤ 1 := by
  unfold likesSubquery
  rw [← List.countP_eq_length_filter, List.countP_map]
  have hc : ((fun p : Int × Nat => p.1 == t) ∘
      (fun k => (k, (likes.filter (fun l => l.tweetId == k)).length)))
      = fun k => k == t := rfl
  rw [hc, ← List.count_eq_countP]
  exact List.nodup_iff_count_le_one.mp (List.nodup_dedup _) t

/-- Under at most one like per (user, tweet) pair, the viewer-liked
subquery has at most one row per tweet id. -/
lemma likedSubquery_filter_len (likes : List LikeRow) (v tid : Int)
    (hpair : likes.Pairwise
      (fun a b => ¬(a.userId = b.userId ∧ a.tweetId = b.tweetId))) :
    ((likedSubquery likes v).filter (fun l => l.tweetId == tid)).length ≤ 1 := by
  unfold likedSubquery
  have h3 := (hpair.filter (fun l => l.userId == v)).filter
    (fun l => l.tweetId == tid)
  rcases hm : (likes.filter (fun l => l.userId == v)).filter
      (fun l => l.tweetId == tid) with _ | ⟨a, _ | ⟨b, rest⟩⟩
  · rw [hm]
    simp
  · rw [hm]
    simp
  · exfalso
    rw [hm] at h3
    have hR := (List.pairwise_cons.mp h3).1 b (by simp)
    have ha : a ∈ (likes.filter (fun l => l.userId == v)).filter
        (fun l => l.tweetId == tid) := by rw [hm]; simp
    have hb : b ∈ (likes.filter (fun l => l.userId == v)).filter
        (fun l => l.tweetId == tid) := by rw [hm]; simp
    have hau : a.userId = v := by
      simpa using List.of_mem_filter (List.mem_filter.mp ha).1
    have hbu : b.userId = v := by
      simpa using List.of_mem_filter (List.mem_filter.mp hb).1
    have hat : a.tweetId = tid := by simpa using List.of_mem_filter ha
    have hbt : b.tweetId = tid := by simpa using List.of_mem_filter hb
    exact hR ⟨hau.trans hbu.symm, hat.trans hbt.symm⟩

lemma leftJoinMatches_of_len_le_one {β : Type} (ms : List β)
    (h : ms.length ≤ 1) : ∃ o, leftJoinMatches ms = [o] := by
  match ms with
  | [] => exact ⟨none, rfl⟩
  | [m] => exact ⟨some m, rfl⟩
  | a :: b :: rest => simp at h

/-- With a unique author row and at most one viewer like, a reply tweet
contributes exactly one row to the join. -/
lemma replyRowsFor_singleton (db : Db) (v : Int) (t : TweetRow)
    (hu : (db.users.filter (fun u => u.id == t.userId)).length = 1)
    (hl : db.likes.Pairwise
      (fun a b => ¬(a.userId = b.userId ∧ a.tweetId = b.tweetId))) :
    ∃ r, replyRowsFor db v t = [r] ∧ r.id = t.id ∧ r.createdAt = t.createdAt := by
  obtain ⟨u, hu1⟩ := List.length_eq_one.mp hu
  obtain ⟨lc, hlc1⟩ := leftJoinMatches_of_len_le_one _
    (likesSubquery_filter_len db.likes t.id)
  obtain ⟨ld, hld1⟩ := leftJoinMatches_of_len_le_one _
    (likedSubquery_filter_len db.likes v t.id hl)
  refine ⟨mkReplyRow t u lc ld, ?_, rfl, rfl⟩
  rw [replyRowsFor, hu1, hlc1, hld1]
  simp

lemma flatMap_map_of_singletons {α β γ : Type} (l : List α) (f : α → List β)
    (p : β → γ) (q : α → γ)
    (h : ∀ a ∈ l, ∃ b, f a = [b] ∧ p b = q a) :
    (l.flatMap f).map p = l.map q := by
  induction l with
  | nil => simp
  | cons a l ih =>
    obtain ⟨b, hb, hpb⟩ := h a (by simp)
    rw [List.flatMap_cons, List.map_append, hb]
    simp only [List.map_cons, List.map_nil, hpb, List.singleton_append,
      List.map_cons]
    rw [ih (fun x hx => h x (by simp [hx]))]

/-- Under referential integrity of authors and at-most-one-like per
pair, the joined rows project (id, createdAt)-wise onto exactly the
reply tweets, in table order. -/
lemma repliesRaw_proj (db : Db) (n v : Int)
    (hauth : ∀ t ∈ db.tweets, t.replyToTweetId = some n →
      (db.users.filter (fun u => u.id == t.userId)).length = 1)
    (hpair : db.likes.Pairwise
      (fun a b => ¬(a.userId = b.userId ∧ a.tweetId = b.tweetId))) :
    (repliesRaw db n v).map (fun r => (r.id, r.createdAt)) =
    (db.tweets.filter (fun t => t.replyToTweetId == some n)).map
      (fun t => (t.id, t.createdAt)) := by
  rw [repliesRaw]
  apply flatMap_map_of_singletons
  intro t ht
  have htw := List.mem_filter.mp ht
  have hrt : t.replyToTweetId = some n := by simpa using htw.2
  obtain ⟨r, hr, hid, hca⟩ :=
    replyRowsFor_singleton db v t (hauth t htw.1 hrt) hpair
  exact ⟨r, hr, by rw [hid, hca]⟩

lemma filter_id_eq_single (tweets : List TweetRow) (t : TweetRow)
    (hnd : (tweets.map (fun s => s.id)).Nodup) (ht : t ∈ tweets) :
    tweets.filter (fun s => s.id == t.id) = [t] := by
  induction tweets with
  | nil => cases ht
  | cons a l ih =>
    rw [List.map_cons, List.nodup_cons] at hnd
    rcases List.mem_cons.mp ht with rfl | hmem
    · rw [List.filter_cons_of_pos (by simp)]
      have hnil : l.filter (fun s => s.id == t.id) = [] := by
        rw [List.filter_eq_nil_iff]
        intro s hs hsid
        exact hnd.1 (List.mem_map.mpr ⟨s, hs, by simpa using hsid⟩)
      rw [hnil]
    · have hane : (a.id == t.id) = false := by
        simp only [beq_eq_false_iff_ne, ne_eq]
        intro he
        apply hnd.1
        rw [he]
        exact List.mem_map.mpr ⟨t, hmem, rfl⟩
      rw [List.filter_cons_of_neg (by simp [hane])]
      exact ih hnd.2 hmem

/-! ## Claims -/

/-- C9: for any likes collection and tweet identifier, the grouped
`count(*)` per tweetId from the likes subquery (0 when the group is
absent) equals the naive count-by-materialization used for the root
tweet: the length of the like rows whose tweetId matches. -/
theorem C9_grouped_count_refines_naive (likes : List LikeRow) (t : Int) :
    groupedLikeCount likes t = (likes.filter (fun l => l.tweetId == t)).length := by
  unfold groupedLikeCount likesSubquery
  rw [find?_key_map]
  by_cases h : t ∈ (likes.map (fun l => l.tweetId)).dedup
  · rw [if_pos h]
  · rw [if_neg h]
    have hnil : likes.filter (fun l => l.tweetId == t) = [] := by
      rw [List.filter_eq_nil_iff]
      intro a ha hc
      exact h (List.mem_dedup.mpr
        (List.mem_map.mpr ⟨a, ha, by simpa using hc⟩))
    rw [hnil]
    rfl

/-- C6: a tweet-identifier path segment that does not parse as an
integer makes the page redirect to the root path with the username
preserved when present (empty username omitted), and the result does
not depend on the data store at all — no read can influence it. -/
theorem C6_nonnumeric_segment_redirects (db db2 : Db) (s uname : String)
    (v v2 : Int) (h : parseIntJS s = none) :
    TweetPage db s uname v = .redirect (if uname = "" then none else some uname)
    ∧ TweetPage db s uname v = TweetPage db2 s uname v2 := by
  constructor <;> simp [TweetPage, h, errorRedirect]

/-- Witness for C6 at the spec's own example segment `"abc"`. -/
theorem C6_witness :
    TweetPage sampleDb "abc" "alice" 6 = .redirect (some "alice")
    ∧ TweetPage sampleDb "abc" "alice" 6 = TweetPage dbNoAuthor "abc" "alice" 0 := by
  have h := C6_nonnumeric_segment_redirects sampleDb dbNoAuthor "abc" "alice" 6 0 (by decide)
  simpa using h

/-- C2 counterexample: the zod schema uses `z.number()` with no `.int()`,
so the non-integer number 1/2 in `userId` is accepted, while the spec's
declared shape (`userId: integer`) rejects it. -/
theorem C2_counterexample :
    postTweetRequestSchema halfPayload = true
    ∧ specDeclaredShape halfPayload = false := by
  constructor <;> decide

/-- C2 amended: the validation accepts exactly the payloads whose
`userId` is any number, whose `content` is a string of length 1..280,
whose `timestart`/`timeend` are absent or any number, and whose
`replyToTweetId` is absent or any positive number — integrality is
never checked. -/
theorem C2_amended_schema_characterization (p : RawPayload) :
    postTweetRequestSchema p = true ↔
      (∃ q, p.userId = some (.num q)) ∧
      (∃ s, p.content = some (.str s) ∧ 1 ≤ s.length ∧ s.length ≤ 280) ∧
      (p.timestart = none ∨ ∃ q, p.timestart = some (.num q)) ∧
      (p.timeend = none ∨ ∃ q, p.timeend = some (.num q)) ∧
      (p.replyToTweetId = none ∨ ∃ q, p.replyToTweetId = some (.num q) ∧ 0 < q) := by
  unfold postTweetRequestSchema
  simp [Bool.and_eq_true, requiredNumber_iff, requiredStr_iff,
    optionalNumber_iff, optionalPos_iff, and_assoc]

/-- C3: a schema-valid payload makes the endpoint insert exactly one
row and respond 200 with the freshly generated identifier; a payload
whose content has length 0 or 281 gets a 400 `Invalid request` response
and the store is left untouched, whatever the store would have done. -/
theorem C3_valid_inserts_invalid_rejected (p : RawPayload) (st : ApiState)
    (oc : InsertOutcome) (s : String) :
    (postTweetRequestSchema p = true →
      (POST .ok p st).1.status = 200 ∧
      (POST .ok p st).1.body = .data [st.nextId] ∧
      (POST .ok p st).2.rows.length = st.rows.length + 1 ∧
      (POST .ok p st).2.nextId = st.nextId + 1)
    ∧ (p.content = some (.str s) → s.length = 0 ∨ s.length = 281 →
      (POST oc p st).1.status = 400 ∧
      (POST oc p st).1.body = .error "Invalid request" ∧
      (POST oc p st).2 = st) := by
  constructor
  · intro hv
    simp [POST, hv]
  · intro hc hlen
    have hschema : postTweetRequestSchema p = false := by
      unfold postTweetRequestSchema
      have : requiredField isStr1to280 p.content = false := by
        rw [hc]
        rcases hlen with h0 | h281
        · simp [requiredField, isStr1to280, h0]
        · simp [requiredField, isStr1to280, h281]
      simp [this]
    simp [POST, hschema]

/-- Witness for C3: a valid payload is inserted and answered 200 with
the fresh id; length-0 and length-281 contents are answered 400 with no
state change. -/
theorem C3_witness :
    ((POST .ok goodPayload ⟨[], 1⟩).1.status = 200 ∧
     (POST .ok goodPayload ⟨[], 1⟩).1.body = .data [1] ∧
     (POST .ok goodPayload ⟨[], 1⟩).2.rows.length = 1 ∧
     (POST .ok goodPayload ⟨[], 1⟩).2.nextId = 2)
    ∧ ((POST .ok emptyContentPayload ⟨[], 1⟩).1.status = 400 ∧
       (POST .ok emptyContentPayload ⟨[], 1⟩).2 = ⟨[], 1⟩)
    ∧ ((POST .ok longContentPayload ⟨[], 1⟩).1.status = 400 ∧
       (POST .ok longContentPayload ⟨[], 1⟩).2 = ⟨[], 1⟩) := by
  have h1 := (C3_valid_inserts_invalid_rejected goodPayload ⟨[], 1⟩ .ok "").1 (by decide)
  have h2 := (C3_valid_inserts_invalid_rejected emptyContentPayload ⟨[], 1⟩ .ok "").2
    rfl (Or.inl (by decide))
  have h3 := (C3_valid_inserts_invalid_rejected longContentPayload ⟨[], 1⟩ .ok
    (String.mk (List.replicate 281 'a'))).2 rfl (Or.inr (by
      show (List.replicate 281 'a').length = 281
      exact List.length_replicate 281 'a'))
  exact ⟨⟨h1.1, h1.2.1, h1.2.2.1, h1.2.2.2⟩, ⟨h2.1, h2.2.2⟩, ⟨h3.1, h3.2.2⟩⟩

/-- C7: when the insert throws, a schema-valid payload is answered 500
with the fixed message `Something went wrong`, the store is unchanged,
the response does not depend on the underlying cause, and a validation
failure is always answered 400, never 500. -/
theorem C7_store_failure_is_500 (p : RawPayload) (st : ApiState)
    (cause : String) (hv : postTweetRequestSchema p = true) :
    (POST (.fail cause) p st).1 = ⟨500, .error "Something went wrong"⟩
    ∧ (POST (.fail cause) p st).2 = st
    ∧ (∀ c2, POST (.fail c2) p st = POST (.fail cause) p st)
    ∧ (∀ (q : RawPayload) (st2 : ApiState) (oc : InsertOutcome),
        postTweetRequestSchema q = false → (POST oc q st2).1.status = 400) := by
  refine ⟨by simp [POST, hv], by simp [POST, hv], fun c2 => by simp [POST, hv], ?_⟩
  intro q st2 oc hq
  simp [POST, hq]

/-- Witness for C7: two different causes give the identical generic 500
response, and an invalid payload gets 400. -/
theorem C7_witness :
    (POST (.fail "store down") goodPayload ⟨[], 1⟩).1
      = ⟨500, .error "Something went wrong"⟩
    ∧ (POST (.fail "constraint violation") goodPayload ⟨[], 1⟩).1
      = (POST (.fail "store down") goodPayload ⟨[], 1⟩).1
    ∧ (POST .ok emptyContentPayload ⟨[], 1⟩).1.status = 400 := by
  obtain ⟨h1, _, h3, h4⟩ :=
    C7_store_failure_is_500 goodPayload ⟨[], 1⟩ "store down" (by decide)
  exact ⟨h1, by rw [h3 "constraint violation"],
    h4 emptyContentPayload ⟨[], 1⟩ .ok (by decide)⟩

/-- C1 counterexample: at a numeric tweet identifier whose root tweet
exists but whose author row does not, the page does not redirect — it
raises an unhandled error at `user.displayName` (the code checks
`tweetData` but never `user`). -/
theorem C1_counterexample :
    TweetPage dbNoAuthor "1" "alice" 0 = .crash
    ∧ TweetPage dbNoAuthor "1" "alice" 0 ≠ errorRedirect "alice" := by
  constructor <;> decide

/-- C1 amended: with a numeric tweet identifier, a missing root tweet
row redirects to the root path (username preserved when present), but a
missing author row raises an unhandled runtime error instead of
redirecting. -/
theorem C1_missing_rows (db : Db) (s uname : String) (v n : Int)
    (hp : parseIntJS s = some n) :
    (db.tweets.find? (fun t => t.id == n) = none →
      TweetPage db s uname v = errorRedirect uname)
    ∧ (∀ td, db.tweets.find? (fun t => t.id == n) = some td →
        db.users.find? (fun u => u.id == td.userId) = none →
        TweetPage db s uname v = .crash) := by
  constructor
  · intro ht
    simp [TweetPage, hp, pageForId, ht]
  · intro td ht hu
    simp [TweetPage, hp, pageForId, ht, hu]

/-- Witness for C1: the missing-tweet case at id 99 redirects; the
missing-author case at id 1 crashes. -/
theorem C1_witness :
    TweetPage sampleDb "99" "alice" 0 = errorRedirect "alice"
    ∧ TweetPage dbNoAuthor "1" "bob" 0 = .crash := by
  refine ⟨(C1_missing_rows sampleDb "99" "alice" 0 99 (by decide)).1 (by decide), ?_⟩
  exact (C1_missing_rows dbNoAuthor "1" "bob" 0 1 (by decide)).2
    ⟨1, 5, "orphan", none, none, none, 0⟩ (by decide) (by decide)

/-- C4 counterexample: a reply with zero like rows does not get
`likeCount = 0` in the batch output — the left join against the grouped
subquery misses and the count is NULL (absent). -/
theorem C4_counterexample :
    (replies dbZeroLikes 1 7).map (fun r => r.likes) = [none]
    ∧ (replies dbZeroLikes 1 7).map (fun r => r.likes) ≠ [some 0] := by
  constructor <;> decide

/-- C4 amended: for the root tweet with zero like rows the view reports
`likeCount = 0` and `viewerHasLiked = false` for every viewer; a reply
with zero like rows still appears in the batch output (the left joins
never drop it), but carries an absent (NULL) count and flag rather than
0/false. -/
theorem C4_zero_likes (db : Db) (s uname : String) (v n : Int)
    (td : TweetRow) (u : UserRow)
    (hp : parseIntJS s = some n)
    (ht : db.tweets.find? (fun t => t.id == n) = some td)
    (hu : db.users.find? (fun w => w.id == td.userId) = some u)
    (hroot : db.likes.filter (fun l => l.tweetId == n) = []) :
    TweetPage db s uname v =
      .render ⟨td.id, td.content, td.timestart, td.timeend,
               u.displayName, u.id, 0, td.createdAt, false⟩
        (replies db n v)
    ∧ (∀ r ∈ replies db n v,
        db.likes.filter (fun l => l.tweetId == r.id) = [] →
        r.likes = none ∧ r.liked = none)
    ∧ (∀ t ∈ db.tweets, t.replyToTweetId = some n →
        ∀ u2 ∈ db.users, u2.id = t.userId →
        ∃ r ∈ replies db n v, r.id = t.id) := by
  refine ⟨?_, ?_, ?_⟩
  · have h2 : db.likes.filter (fun l => l.tweetId == n && l.userId == v) = [] := by
      rw [List.filter_eq_nil_iff] at hroot ⊢
      intro a ha hp2
      rw [Bool.and_eq_true] at hp2
      exact hroot a ha hp2.1
    simp [TweetPage, hp, pageForId, ht, hu, hroot, h2]
  · intro r hr h0
    exact mem_replies_zero_likes db n v r hr h0
  · intro t ht2 hrt u2 hu2 huid
    exact reply_appears db n v t u2 ht2 hrt hu2 huid

/-- Witness for C4: with no likes at all, the page renders the root
with count 0 and flag false, and the sole reply appears with NULL count
and flag. -/
theorem C4_witness :
    TweetPage dbZeroLikes "1" "bob" 7 =
      .render ⟨1, "root", none, none, "alice", 5, 0, 10, false⟩
        (replies dbZeroLikes 1 7)
    ∧ (replies dbZeroLikes 1 7).map (fun r => (r.id, r.likes, r.liked))
      = [(2, none, none)] := by
  have h := C4_zero_likes dbZeroLikes "1" "bob" 7 1
    ⟨1, 5, "root", none, none, none, 10⟩ ⟨5, "alice"⟩
    (by decide) (by decide) (by decide) (by decide)
  exact ⟨h.1, by decide⟩

/-- C5: under the data-model invariants (each reply's author resolves
to exactly one user row; at most one like per (user, tweet) pair), the
reply query returns exactly the tweets whose parent identifier equals
the requested id — a permutation id-wise of the matching table rows —
ordered by creation timestamp ascending, and every returned row indeed
has the requested parent. -/
theorem C5_replies_exact_and_ordered (db : Db) (n v : Int)
    (hauth : ∀ t ∈ db.tweets, t.replyToTweetId = some n →
      (db.users.filter (fun u => u.id == t.userId)).length = 1)
    (hpair : db.likes.Pairwise
      (fun a b => ¬(a.userId = b.userId ∧ a.tweetId = b.tweetId))) :
    ((replies db n v).map (fun r => r.id)).Perm
      ((db.tweets.filter (fun t => t.replyToTweetId == some n)).map
        (fun t => t.id))
    ∧ ((replies db n v).map (fun r => r.createdAt)).Sorted (· ≤ ·)
    ∧ (∀ r ∈ replies db n v, r.replyToTweetId = some n) := by
  refine ⟨?_, ?_, ?_⟩
  · have hperm := (List.perm_insertionSort byCreatedAt
      (repliesRaw db n v)).map (fun r => r.id)
    have hproj := repliesRaw_proj db n v hauth hpair
    have h1 : (repliesRaw db n v).map (fun r => r.id)
        = (db.tweets.filter (fun t => t.replyToTweetId == some n)).map
          (fun t => t.id) := by
      have h2 := congrArg (List.map Prod.fst) hproj
      simpa [List.map_map, Function.comp_def] using h2
    rw [replies]
    rw [h1] at hperm
    exact hperm
  · have hs : (replies db n v).Pairwise byCreatedAt :=
      List.sorted_insertionSort byCreatedAt (repliesRaw db n v)
    exact List.pairwise_map.mpr hs
  · intro r hr
    rw [mem_replies_iff] at hr
    obtain ⟨t, ht, u, _, lc, _, ld, _, rfl⟩ := hr
    have hrt : (t.replyToTweetId == some n) = true :=
      (List.mem_filter.mp ht).2
    simpa [mkReplyRow] using hrt

/-- Witness for C5: the two replies of the sample store come back as a
permutation of the matching tweets, sorted oldest first: created-at 20
before 30, hence ids [3, 2]. -/
theorem C5_witness :
    ((replies sampleDb 1 5).map (fun r => r.id)).Perm
      ((sampleDb.tweets.filter (fun t => t.replyToTweetId == some 1)).map
        (fun t => t.id))
    ∧ ((replies sampleDb 1 5).map (fun r => r.createdAt)).Sorted (· ≤ ·)
    ∧ (replies sampleDb 1 5).map (fun r => (r.id, r.createdAt)) = [(3, 20), (2, 30)] := by
  have h := C5_replies_exact_and_ordered sampleDb 1 5 (by decide) (by decide)
  exact ⟨h.1, h.2.1, by decide⟩

/-- C10: under at most one like per (user, tweet) pair — plus the
primary-key uniqueness of tweet ids and the author invariant — every
direct reply to the requested tweet appears exactly once in the reply
output: the ungrouped viewer-liked subquery never duplicates a row. -/
theorem C10_each_reply_appears_once (db : Db) (n v : Int)
    (hpair : db.likes.Pairwise
      (fun a b => ¬(a.userId = b.userId ∧ a.tweetId = b.tweetId)))
    (hauth : ∀ t ∈ db.tweets, t.replyToTweetId = some n →
      (db.users.filter (fun u => u.id == t.userId)).length = 1)
    (hids : (db.tweets.map (fun t => t.id)).Nodup) :
    ∀ t ∈ db.tweets, t.replyToTweetId = some n →
      (replies db n v).countP (fun r => r.id == t.id) = 1 := by
  intro t ht hrt
  rw [replies, (List.perm_insertionSort byCreatedAt
    (repliesRaw db n v)).countP_eq]
  have hproj := repliesRaw_proj db n v hauth hpair
  have h1 : (repliesRaw db n v).countP (fun r => r.id == t.id)
      = (db.tweets.filter (fun s => s.replyToTweetId == some n)).countP
        (fun s => s.id == t.id) := by
    have h2 := congrArg (List.countP (fun x : Int × Int => x.1 == t.id)) hproj
    rw [List.countP_map, List.countP_map] at h2
    simpa [Function.comp_def] using h2
  rw [h1, List.countP_eq_length_filter]
  have hcomm : (db.tweets.filter
        (fun s => s.replyToTweetId == some n)).filter (fun s => s.id == t.id)
      = (db.tweets.filter (fun s => s.id == t.id)).filter
        (fun s => s.replyToTweetId == some n) := by
    rw [List.filter_filter, List.filter_filter]
    exact List.filter_congr (fun x _ => Bool.and_comm _ _)
  rw [hcomm, filter_id_eq_single db.tweets t hids ht]
  simp [hrt]

/-- Witness for C10: both replies of the sample store appear exactly
once, for the viewer who liked one of them. -/
theorem C10_witness :
    (replies sampleDb 1 6).countP (fun r => r.id == 2) = 1
    ∧ (replies sampleDb 1 6).countP (fun r => r.id == 3) = 1 := by
  have h := C10_each_reply_appears_once sampleDb 1 6
    (by decide) (by decide) (by decide)
  exact ⟨h ⟨2, 6, "r1", none, none, some 1, 30⟩ (by decide) rfl,
    h ⟨3, 5, "r2", none, none, some 1, 20⟩ (by decide) rfl⟩

/-- C8 counterexample: the segment `"0xa"` has leading integer 0 and a
fully non-numeric tail `"xa"`, but JS `parseInt` auto-detects the `0x`
prefix and parses hexadecimal: the page renders tweet 10, not tweet 0. -/
theorem C8_counterexample :
    parseIntJS "0xa" = some 10
    ∧ TweetPage dbHex "0xa" "alice" 7
      = .render ⟨10, "ten", none, none, "alice", 5, 0, 50, false⟩ []
    ∧ TweetPage dbHex "0xa" "alice" 7
      ≠ .render ⟨0, "zero", none, none, "alice", 5, 0, 40, false⟩ [] := by
  refine ⟨by decide, by decide, by decide⟩

/-- C8 amended: a path segment made of a nonempty run of decimal digits
followed by a non-digit tail does not redirect at the parse step — it
parses to the leading integer and the page proceeds exactly as for that
identifier — unless the digits are the single `0` and the tail starts
with `x`/`X`, in which case parseInt switches to hexadecimal. -/
theorem C8_leading_digits_proceed (ds ts : List Char) (k : Nat)
    (hne : ds ≠ [])
    (hdig : ∀ c ∈ ds, '0' ≤ c ∧ c ≤ '9')
    (hts : ts = [] ∨ ∃ c ts2, ts = c :: ts2 ∧ ¬('0' ≤ c ∧ c ≤ '9'))
    (hnx : ds = ['0'] → ∀ c ts2, ts = c :: ts2 → ¬(c = 'x' ∨ c = 'X'))
    (hk : k = digitsToNat 10 (ds.map (fun c => c.toNat - 48))) :
    parseIntJS (String.mk (ds ++ ts)) = some (k : Int)
    ∧ (∀ db uname v, TweetPage db (String.mk (ds ++ ts)) uname v
        = pageForId db (k : Int) uname v) := by
  have hp : parseIntJS (String.mk (ds ++ ts)) = some (k : Int) := by
    subst hk
    exact parseIntChars_digits_prefix ds ts hne hdig hts hnx
  exact ⟨hp, fun db uname v => by simp [TweetPage, hp]⟩

/-- Witness for C8 at the claim's own example `"12abc"`: it parses to
12 and the page renders the detail view of tweet 12. -/
theorem C8_witness :
    parseIntJS "12abc" = some 12
    ∧ TweetPage db12 "12abc" "alice" 6 = pageForId db12 12 "alice" 6
    ∧ TweetPage db12 "12abc" "alice" 6
      = .render ⟨12, "twelve", none, none, "alice", 5, 0, 60, false⟩ [] := by
  have h := C8_leading_digits_proceed ['1', '2'] ['a', 'b', 'c'] 12
    (by decide) (by decide)
    (Or.inr ⟨'a', ['b', 'c'], rfl, by decide⟩)
    (fun hd => absurd hd (by decide)) (by decide)
  have hs : String.mk (['1', '2'] ++ ['a', 'b', 'c']) = "12abc" := rfl
  rw [hs] at h
  refine ⟨h.1, h.2 db12 "alice" 6, ?_⟩
  rw [h.2 db12 "alice" 6]
  decide

end HW3
